import Mathlib

/-!
Shallow embedding of `src/history/subscriber/persister.py` (class `Persister`),
the event-to-document persister of the dojot history service, together with
proofs checking the natural-language specification against it.

Modelling conventions (for the external collaborators; the code of the class
itself is translated line by line from the source):

* JSON values (`json.loads` results and Python dict/list/str/int payloads)
  are modelled by the inductive `JVal`.  JSON `null` and Python `None` are
  both `JVal.jnull`, exactly as `json.loads` conflates them.
* An inbound bus payload is an `Option JVal`: `none` stands for a payload
  that is not parseable as JSON (on which `json.loads` raises a
  `ValueError`, namely `json.JSONDecodeError`), `some v` for one that
  parses to `v`.
* Instants (`datetime` values) are rationals counting seconds since the
  Unix epoch; `datetime.utcfromtimestamp` is the identity on that
  representation.  The ambient clock is a parameter `now : Int` (the
  processing instant in whole seconds; no claim depends on the clock
  having a fractional part): `datetime.utcnow()` returns `(now : ℚ)` and
  `int(time.time() * 1000)` is `now * 1000`.
* `dateutil.parser.parse` (external library) is a parameter
  `dateParse : String → Option ℚ`; `none` models its `ValueError`
  (message `Unknown string format: <input>`) on a string it cannot parse.
  On a non-string argument it raises `TypeError`, which the source wraps
  into `TypeError` with message `Timestamp could not be parsed`.
* The MongoDB collection object is a failure oracle `Db`: for every
  operation it answers `none` (the pymongo call succeeds) or `some e`
  (the call raises `e`).  Every attempted database call and every log
  statement of the source is recorded, in order, as an `Event`.
* Python exceptions are `PyExc`; `except ValueError` catches exactly the
  `valueError` constructor, `except TypeError` exactly `typeError`, and
  `except Exception` catches everything.
-/

/-- Log severities used by the source (`Log().color_log()` logger). -/
inductive LogLevel where
  | debug
  | info
  | warn
  | error
deriving DecidableEq, Repr

/-- Python exceptions that the translated code can raise or catch. -/
inductive PyExc where
  | valueError (msg : String)
  | typeError (msg : String)
  | keyError (k : String)
  | attributeError (msg : String)
  | dbError (msg : String)
deriving DecidableEq, Repr

/-- Python `except ValueError` catches exactly these. -/
def PyExc.isValueError : PyExc → Bool
  | .valueError _ => true
  | _ => false

/-- JSON values as produced by `json.loads`; `jnull` doubles as Python
`None` (the two are identified by the json module).  JSON numbers
occurring in the claims are integers, so numbers are modelled by `jint`. -/
inductive JVal where
  | jnull
  | jbool (b : Bool)
  | jint (n : Int)
  | jstr (s : String)
  | jarr (elems : List JVal)
  | jobj (fields : List (String × JVal))

/-- Python `x is None`. -/
def JVal.isNull : JVal → Bool
  | .jnull => true
  | _ => false

/-- Python `x == s` against a string literal `s`: true exactly when `x`
is that string (values of other types compare unequal, without error). -/
def JVal.eqStr : JVal → String → Bool
  | .jstr s, t => s = t
  | _, _ => false

/-- A document handed to `insert_many`.  The source builds dicts with the
fixed key sets of lines 125-130 and 134-138 of `persister.py`. -/
inductive Doc where
  | attrDoc (attr : String) (value : JVal) (device_id : JVal) (ts : ℚ)
  | statusDoc (status : JVal) (device_id : JVal) (ts : ℚ)

/-- Timestamp carried by a document. -/
def Doc.ts : Doc → ℚ
  | .attrDoc _ _ _ t => t
  | .statusDoc _ _ t => t

/-- Is this an attribute (as opposed to status) document? -/
def Doc.isAttrDoc : Doc → Bool
  | .attrDoc _ _ _ _ => true
  | .statusDoc _ _ _ => false

/-- Observable actions of the persister: one constructor per log statement
and per database call of the source, carrying the data that the source
puts into the statement. -/
inductive Event where
  | logDbInitialized
  | logCouldNotInitMongo (e : PyExc)
  | logNewMessage (m : JVal)
  | logFailedParseTimestamp (t : JVal) (e : PyExc)
  | logThisIsTheData (d : JVal)
  | logNotValidJson
  | logGotDataEvent
  | logNoMetadata
  | logNoDeviceid
  | logFailedPersist (e : PyExc)
  | logGotEmptyEvent (device : JVal)
  | logGotDeviceEvent (d : JVal)
  | dbCreateIndexTsDesc (coll : String)
  | dbCreateIndexTtl (coll : String)
  | dbInsertMany (coll : String) (docs : List Doc)

/-- Severity of a logged event; `none` for database calls. -/
def Event.level : Event → Option LogLevel
  | .logDbInitialized => some .info
  | .logCouldNotInitMongo _ => some .warn
  | .logNewMessage _ => some .info
  | .logFailedParseTimestamp _ _ => some .error
  | .logThisIsTheData _ => some .info
  | .logNotValidJson => some .error
  | .logGotDataEvent => some .debug
  | .logNoMetadata => some .error
  | .logNoDeviceid => some .error
  | .logFailedPersist _ => some .warn
  | .logGotEmptyEvent _ => some .info
  | .logGotDeviceEvent _ => some .info
  | .dbCreateIndexTsDesc _ => none
  | .dbCreateIndexTtl _ => none
  | .dbInsertMany _ _ => none

/-- Is this event a call to the persistence sink (`insert_many`)? -/
def Event.isSinkCall : Event → Bool
  | .dbInsertMany _ _ => true
  | _ => false

/-- The bulk-write calls of a trace, with their collection and batch. -/
def sinkCalls : List Event → List (String × List Doc)
  | [] => []
  | .dbInsertMany c ds :: es => (c, ds) :: sinkCalls es
  | _ :: es => sinkCalls es

/-- All database calls of a trace (index creations and bulk writes). -/
def dbEvents : List Event → List Event
  | [] => []
  | e :: es => if e.level.isNone then e :: dbEvents es else dbEvents es

/-- Failure oracle for the MongoDB collection object: for each pymongo
call, `none` means the call succeeds, `some e` means it raises `e`. -/
structure Db where
  failCreateIndexTsDesc : String → Option PyExc
  failCreateIndexTtl : String → Option PyExc
  failInsertMany : String → List Doc → Option PyExc

/-- Result of running a translated method: the ordered trace of log and
database events, and either a normal return value or an escaping
exception. -/
abbrev Res (α : Type) := List Event × Except PyExc α

/-- First-match association-list lookup: Python dict indexing (dicts made
by `json.loads` have unique keys, so first match is the match). -/
def lookupFirst (fields : List (String × JVal)) (k : String) : Option JVal :=
  match fields with
  | [] => none
  | kv :: rest => if kv.1 = k then some kv.2 else lookupFirst rest k

/-- Python `d.get(k, default)`: on a dict, the value at `k` or `default` when the
key is absent; on a non-dict it raises `AttributeError`. -/
def pyGetD (v : JVal) (k : String) (d : JVal) : Except PyExc JVal :=
  match v with
  | .jobj fields =>
    match lookupFirst fields k with
    | some x => .ok x
    | none => .ok d
  | _ => .error (.attributeError "object has no attribute get")

/-- Python `d.get(k, None)`. -/
def pyGet (v : JVal) (k : String) : Except PyExc JVal :=
  pyGetD v k .jnull

/-- Python `d[k]`: raises `KeyError` when the key is absent, `TypeError` when the
value is not subscriptable by a string key. -/
def pyGetItem (v : JVal) (k : String) : Except PyExc JVal :=
  match v with
  | .jobj fields =>
    match lookupFirst fields k with
    | some x => .ok x
    | none => .error (.keyError k)
  | _ => .error (.typeError "object is not subscriptable")

/-- Python `d.keys()` as a list, in insertion order; `AttributeError` on a
non-dict. -/
def pyKeys (v : JVal) : Except PyExc (List String) :=
  match v with
  | .jobj fields => .ok (fields.map Prod.fst)
  | _ => .error (.attributeError "object has no attribute keys")

/-- Python `str()` as applied by the format call that builds collection
names.  Scalar values are
rendered exactly; container values (unreachable in the claims, which only
use string tenants and device ids) are rendered opaquely. -/
def pyStr : JVal → String
  | .jstr s => s
  | .jint n => toString n
  | .jbool b => if b then "True" else "False"
  | .jnull => "None"
  | .jarr _ => "<list>"
  | .jobj _ => "<dict>"

/-- Characters of a string with surrounding spaces removed (the stripping
`int()` and `float()` apply to string arguments). -/
def trimChars (cs : List Char) : List Char :=
  ((cs.dropWhile (fun c => c = ' ')).reverse.dropWhile (fun c => c = ' ')).reverse

/-- Value of a digit string (most significant digit first). -/
def natOfDigits (cs : List Char) : Nat :=
  cs.foldl (fun a c => a * 10 + (c.toNat - 48)) 0

/-- Are all characters decimal digits? -/
def allDigits (cs : List Char) : Bool :=
  cs.all Char.isDigit

/-- A non-empty all-digit string, as a `Nat`. -/
def parseDigits (cs : List Char) : Option Nat :=
  if cs ≠ [] && allDigits cs then some (natOfDigits cs) else none

/-- Model of Python `int(s)` for strings: optional sign and decimal
digits, surrounding whitespace allowed; anything else is a `ValueError`. -/
def strToInt (s : String) : Option Int :=
  match trimChars s.data with
  | [] => none
  | c :: cs =>
    if c = '+' then (parseDigits cs).map Int.ofNat
    else if c = '-' then (parseDigits cs).map (fun n => -(n : Int))
    else (parseDigits (c :: cs)).map Int.ofNat

/-- Split a character list at the first dot. -/
def splitAtDot (cs : List Char) : List Char × Option (List Char) :=
  match cs with
  | [] => ([], none)
  | c :: rest =>
    if c = '.' then ([], some rest)
    else
      match splitAtDot rest with
      | (as, r) => (c :: as, r)

/-- Unsigned part of a float literal: digits with an optional single dot,
at least one digit overall. -/
def parseUnsignedRat (cs : List Char) : Option ℚ :=
  match splitAtDot cs with
  | (as, none) => (parseDigits as).map (fun n => (n : ℚ))
  | (as, some bs) =>
    if allDigits as && allDigits bs && (decide (as ≠ []) || decide (bs ≠ [])) then
      some ((natOfDigits as : ℚ) + (natOfDigits bs : ℚ) / ((10 : ℚ) ^ bs.length))
    else none

/-- Model of Python `float(s)` for strings: optional sign, decimal digits
with an optional dot (exponent forms and inf/nan are outside the scope of
the claims); failure is a `ValueError`. -/
def strToRat (s : String) : Option ℚ :=
  match trimChars s.data with
  | [] => none
  | c :: cs =>
    if c = '+' then parseUnsignedRat cs
    else if c = '-' then (parseUnsignedRat cs).map (fun q => -q)
    else parseUnsignedRat (c :: cs)

/-- Python `int(x)` on a JSON value: identity on ints, bools count as 0
or 1, numeric strings are parsed (`ValueError` otherwise); other types
raise `TypeError`. -/
def pyInt : JVal → Except PyExc Int
  | .jint n => .ok n
  | .jbool b => .ok (if b then 1 else 0)
  | .jstr s =>
    match strToInt s with
    | some n => .ok n
    | none => .error (.valueError ("invalid literal for int with base 10: " ++ s))
  | _ => .error (.typeError "int argument must be a string or a number")

/-- Python `x > k` against an int `k`: defined for numbers (bools are
ints), raises `TypeError` for strings and every other type, exactly as
comparing a `str` with an `int` does in Python 3. -/
def pyGtInt (v : JVal) (k : Int) : Except PyExc Bool :=
  match v with
  | .jint n => .ok (decide (k < n))
  | .jbool b => .ok (decide (k < (if b then (1 : Int) else 0)))
  | _ => .error (.typeError "gt not supported between instances of str and int")

/-- Python `float(x)`: numbers convert, numeric strings parse
(`ValueError` otherwise), other types raise `TypeError`. -/
def pyFloat : JVal → Except PyExc ℚ
  | .jint n => .ok (n : ℚ)
  | .jbool b => .ok (if b then 1 else 0)
  | .jstr s =>
    match strToRat s with
    | some q => .ok q
    | none => .error (.valueError ("could not convert string to float: " ++ s))
  | _ => .error (.typeError "float argument must be a string or a number")

/-- First attempt of `parse_datetime` (lines 80-84): the body of the
first `try` block.  `val = int(timestamp)`, then the buggy comparison
`timestamp > ((2**31)-1)` (on the raw input, not on `val`), then either
`utcfromtimestamp(val/1000)` or `utcfromtimestamp(float(timestamp))`. -/
def pdAttemptInt (t : JVal) : Except PyExc ℚ := do
  let val ← pyInt t
  let big ← pyGtInt t (2 ^ 31 - 1)
  if big then
    pure ((val : ℚ) / 1000)
  else
    pyFloat t

/-- Second attempt of `parse_datetime` (lines 87-88):
`utcfromtimestamp(float(timestamp)/1000)`. -/
def pdAttemptMillis (t : JVal) : Except PyExc ℚ := do
  let f ← pyFloat t
  pure (f / 1000)

/-- Third attempt of `parse_datetime` (lines 91-94): `parse(timestamp)`
from dateutil.  On a string it either succeeds or raises `ValueError`
(which the source does not catch); on a non-string it raises `TypeError`,
which line 94 re-raises as the wrapping
`TypeError("Timestamp could not be parsed: ...")`. -/
def pdAttemptDateutil (dateParse : String → Option ℚ) (t : JVal) : Except PyExc ℚ :=
  match t with
  | .jstr s =>
    match dateParse s with
    | some q => .ok q
    | none => .error (.valueError ("Unknown string format: " ++ s))
  | _ => .error (.typeError "Timestamp could not be parsed")

/-- Method `Persister.parse_datetime` (lines 71-94).  Only `ValueError` moves
the chain from one attempt to the next (each move is logged at error
level, line 86 and line 90); any other exception escapes immediately. -/
def parse_datetime (dateParse : String → Option ℚ) (now : Int) (timestamp : JVal) :
    Res ℚ :=
  match timestamp with
  | .jnull => ([], .ok (now : ℚ))
  | t =>
    match pdAttemptInt t with
    | .ok v => ([], .ok v)
    | .error e1 =>
      if e1.isValueError then
        match pdAttemptMillis t with
        | .ok v => ([.logFailedParseTimestamp t e1], .ok v)
        | .error e2 =>
          if e2.isValueError then
            match pdAttemptDateutil dateParse t with
            | .ok v =>
              ([.logFailedParseTimestamp t e1, .logFailedParseTimestamp t e2], .ok v)
            | .error e3 =>
              ([.logFailedParseTimestamp t e1, .logFailedParseTimestamp t e2], .error e3)
          else ([.logFailedParseTimestamp t e1], .error e2)
      else ([], .error e1)

/-- Method `Persister.create_indexes` (lines 34-42): two `create_index` calls on
the named collection, with no exception handling of its own. -/
def create_indexes (db : Db) (collection_name : String) : Res Unit :=
  match db.failCreateIndexTsDesc collection_name with
  | some e => ([.dbCreateIndexTsDesc collection_name], .error e)
  | none =>
    match db.failCreateIndexTtl collection_name with
    | some e =>
      ([.dbCreateIndexTsDesc collection_name, .dbCreateIndexTtl collection_name], .error e)
    | none =>
      ([.dbCreateIndexTsDesc collection_name, .dbCreateIndexTtl collection_name], .ok ())

/-- Method `Persister.init_mongodb` (lines 18-32): client construction plus
optional index provisioning, the whole block wrapped in
`except Exception`, which logs a warning and returns normally.
`connectFail` models a `MongoClient` constructor failure. -/
def init_mongodb (db : Db) (connectFail : Option PyExc) (collection_name : Option String) :
    Res Unit :=
  match connectFail with
  | some e => ([.logCouldNotInitMongo e], .ok ())
  | none =>
    match collection_name with
    | none => ([.logDbInitialized], .ok ())
    | some c =>
      match create_indexes db c with
      | (evs, .ok _) => (evs ++ [.logDbInitialized], .ok ())
      | (evs, .error e) => (evs ++ [.logCouldNotInitMongo e], .ok ())

/-- The body of the per-attribute `for` loop of
`handle_event_data` (lines 124-130): for each key, fetch the value by
indexing the attrs dict and append one attribute document; an exception at
any iteration aborts the loop. -/
def attrLoop (data : JVal) (device_id : JVal) (ts : ℚ) :
    List String → Except PyExc (List Doc)
  | [] => .ok []
  | k :: ks => do
    let av ← pyGetItem data "attrs"
    let v ← pyGetItem av k
    let rest ← attrLoop data device_id ts ks
    pure (Doc.attrDoc k v device_id ts :: rest)

/-- The document-building part of `handle_event_data` (lines 123-138):
one dict per key of the attrs mapping (defaulting to the empty dict when
the key is absent), plus one status dict when the metadata status, fetched
with a None default, is not None. -/
def build_docs (data : JVal) (metadata : JVal) (device_id : JVal) (ts : ℚ) :
    Except PyExc (List Doc) := do
  let attrsVal ← pyGetD data "attrs" (.jobj [])
  let ks ← pyKeys attrsVal
  let attrDocs ← attrLoop data device_id ts ks
  let st ← pyGet metadata "status"
  if st.isNull then
    pure attrDocs
  else
    pure (attrDocs ++ [Doc.statusDoc st device_id ts])

/-- Method `Persister.handle_event_data` (lines 96-146).  A `none` message is a
payload `json.loads` rejects: the handler logs an error and returns
(lines 107-112).  Missing metadata or deviceid drop the event with an
error log; an escaping `(trace, .error e)` models an uncaught exception
leaving the handler. -/
def handle_event_data (dateParse : String → Option ℚ) (db : Db) (now : Int)
    (tenant : String) (message : Option JVal) : Res Unit :=
  match message with
  | none => ([.logNotValidJson], .ok ())
  | some data =>
    let pre := [Event.logThisIsTheData data, Event.logGotDataEvent]
    match pyGet data "metadata" with
    | .error e => (pre, .error e)
    | .ok metadata =>
      if metadata.isNull then
        (pre ++ [.logNoMetadata], .ok ())
      else
        match pyGet metadata "deviceid" with
        | .error e => (pre, .error e)
        | .ok device_id =>
          if device_id.isNull then
            (pre ++ [.logNoDeviceid], .ok ())
          else
            match pyGet metadata "timestamp" with
            | .error e => (pre, .error e)
            | .ok tsv =>
              match parse_datetime dateParse now tsv with
              | (tlogs, .error e) => (pre ++ tlogs, .error e)
              | (tlogs, .ok ts) =>
                match build_docs data metadata device_id ts with
                | .error e => (pre ++ tlogs, .error e)
                | .ok docs =>
                  if docs.isEmpty then
                    (pre ++ tlogs ++ [.logGotEmptyEvent device_id], .ok ())
                  else
                    let collection_name := tenant ++ "_" ++ pyStr device_id
                    match db.failInsertMany collection_name docs with
                    | some e =>
                      (pre ++ tlogs ++
                        [.dbInsertMany collection_name docs, .logFailedPersist e], .ok ())
                    | none =>
                      (pre ++ tlogs ++ [.dbInsertMany collection_name docs], .ok ())

/-- Body of `Persister.parse_message` (lines 55-69) up to the dict that
is serialized and returned: attrs from data.data.attrs,
metadata.timestamp = `int(time.time() * 1000)`, metadata.deviceid
from data.data.id, metadata.tenant from data.meta.service. -/
def pmBuild (now : Int) (data : JVal) : Except PyExc JVal := do
  let dv ← pyGetItem data "data"
  let attrs ← pyGetItem dv "attrs"
  let dv2 ← pyGetItem data "data"
  let idv ← pyGetItem dv2 "id"
  let mv ← pyGetItem data "meta"
  let sv ← pyGetItem mv "service"
  pure (JVal.jobj [("attrs", attrs),
    ("metadata", .jobj [("timestamp", .jint (now * 1000)),
                        ("deviceid", idv), ("tenant", sv)])])

/-- Method `Persister.parse_message` (lines 55-69): the reshaped message is
logged at info level and returned (serialization and the matching
deserialization in `handle_event_data` round-trip to the same value). -/
def parse_message (now : Int) (data : JVal) : Res JVal :=
  match pmBuild now data with
  | .error e => ([], .error e)
  | .ok m => ([.logNewMessage m], .ok m)

/-- Collection name of line 162: meta.service and data.id joined by an
underscore through the format call. -/
def collNameOfLifecycle (data : JVal) : Except PyExc String := do
  let mv ← pyGetItem data "meta"
  let sv ← pyGetItem mv "service"
  let dv ← pyGetItem data "data"
  let iv ← pyGetItem dv "id"
  pure (pyStr sv ++ "_" ++ pyStr iv)

/-- Method `Persister.handle_event_devices` (lines 148-166).  `json.loads` is
called with no exception handling, so a non-JSON payload (`none`) escapes
with the decode error; likewise nothing catches errors of
`create_indexes` or of the configure-path reshaping. -/
def handle_event_devices (dateParse : String → Option ℚ) (db : Db) (now : Int)
    (tenant : String) (message : Option JVal) : Res Unit :=
  match message with
  | none => ([], .error (.valueError "Expecting value"))
  | some data =>
    let pre := [Event.logGotDeviceEvent data]
    match pyGetItem data "event" with
    | .error e => (pre, .error e)
    | .ok ev =>
      if ev.eqStr "configure" then
        match parse_message now data with
        | (evs, .error e) => (pre ++ evs, .error e)
        | (evs, .ok new_message) =>
          match handle_event_data dateParse db now tenant (some new_message) with
          | (evs2, r) => (pre ++ evs ++ evs2, r)
      else
        match collNameOfLifecycle data with
        | .error e => (pre, .error e)
        | .ok collection_name =>
          match create_indexes db collection_name with
          | (evs, r) => (pre ++ evs, r)

/-- A dateutil stand-in that can parse nothing (concrete instantiations
in witnesses). -/
def noDateParse : String → Option ℚ := fun _ => none

/-- A database on which every pymongo call succeeds. -/
def allOkDb : Db :=
  { failCreateIndexTsDesc := fun _ => none
    failCreateIndexTtl := fun _ => none
    failInsertMany := fun _ _ => none }

/-- A database whose descending-time index creation raises a storage
error on every collection (concrete instantiation for the provisioning
failure claims). -/
def ciFailDb : Db :=
  { failCreateIndexTsDesc := fun _ => some (.dbError "boom")
    failCreateIndexTtl := fun _ => none
    failInsertMany := fun _ _ => none }

/-- A concrete non-configure device-lifecycle event. -/
def createMsg : JVal :=
  .jobj [("event", .jstr "create"),
         ("meta", .jobj [("service", .jstr "tenantA")]),
         ("data", .jobj [("id", .jstr "dev1")])]

/-- A configure device-lifecycle event with one attribute, parameterized
by its `meta.service`, `data.id` and the single attribute pair. -/
def cfgMsgOf (service devid aname : String) (aval : JVal) : JVal :=
  .jobj [("event", .jstr "configure"),
         ("meta", .jobj [("service", .jstr service)]),
         ("data", .jobj [("id", .jstr devid), ("attrs", .jobj [(aname, aval)])])]

/-- The telemetry envelope `parse_message` produces from
`cfgMsgOf service devid aname aval` at processing instant `now`. -/
def cfgReshapedOf (now : Int) (service devid aname : String) (aval : JVal) : JVal :=
  .jobj [("attrs", .jobj [(aname, aval)]),
         ("metadata", .jobj [("timestamp", .jint (now * 1000)),
                             ("deviceid", .jstr devid), ("tenant", .jstr service)])]

/-- A concrete telemetry event with present-but-empty attrs. -/
def emptyAttrsMsg : JVal :=
  .jobj [("metadata", .jobj [("deviceid", .jstr "dev1")]), ("attrs", .jobj [])]

/-- A concrete telemetry event with no attrs key and a status. -/
def statusOnlyMsg : JVal :=
  .jobj [("metadata", .jobj [("deviceid", .jstr "dev1"), ("status", .jstr "online")])]

/-- A concrete telemetry event with two attributes and no status. -/
def twoAttrsMsg : JVal :=
  .jobj [("metadata", .jobj [("deviceid", .jstr "dev1")]),
         ("attrs", .jobj [("temp", .jint 10), ("hum", .jint 50)])]

/-- Apply `f` to the value stored under key `t` of a dict (identity on
non-dicts and on dicts without that key). -/
def updValue (t : String) (f : JVal → JVal) : JVal → JVal
  | .jobj fields =>
    .jobj (fields.map fun kv => if kv.1 = t then (kv.1, f kv.2) else kv)
  | m => m

/-- Replace the value stored under the key "tenant" of a dict: one half
of the formal version of "two envelopes differing only in
metadata.tenant". -/
def updTenant (v : JVal) : JVal → JVal :=
  updValue "tenant" (fun _ => v)

/-- Replace the value stored under "tenant" inside the "metadata" entry
of an envelope, leaving everything else (in particular "attrs" and the
other metadata fields) unchanged. -/
def updMetaTenant (v : JVal) : JVal → JVal :=
  updValue "metadata" (updTenant v)

@[simp] theorem except_bind_ok {α β : Type} (a : α) (f : α → Except PyExc β) :
    (Except.ok a >>= f) = f a := rfl

@[simp] theorem except_bind_err {α β : Type} (e : PyExc) (f : α → Except PyExc β) :
    ((Except.error e : Except PyExc α) >>= f) = Except.error e := rfl

@[simp] theorem except_pure_eq {α : Type} (a : α) :
    (pure a : Except PyExc α) = Except.ok a := rfl

/-- Every event `create_indexes` emits is a database call (no log entry,
in particular no warning). -/
theorem create_indexes_events_db_only (db : Db) (c : String) :
    ∀ x ∈ (create_indexes db c).1, Event.level x = none := by
  unfold create_indexes
  intro x hx
  repeat' split at hx
  all_goals fin_cases hx <;> rfl

/-- Every event `parse_datetime` emits is an error-level log entry (the
two failed-attempt logs); none is a sink call. -/
theorem parse_datetime_events_error_logs (dateParse : String → Option ℚ)
    (now : Int) (t : JVal) :
    ∀ x ∈ (parse_datetime dateParse now t).1,
      Event.level x = some .error ∧ x.isSinkCall = false := by
  unfold parse_datetime
  intro x hx
  repeat' split at hx
  all_goals fin_cases hx <;> exact ⟨rfl, rfl⟩

/-- Claim C1.  The spec says an input interpretable as an integer count,
whether an integer or a numeric string, yields the instant at that count
in seconds since epoch when at most 2^31 - 1 and in milliseconds when
strictly larger.  That is what the code does for integer inputs, but for
a numeric string line 82 compares the raw string with the int bound,
which in Python 3 raises an uncaught TypeError (only ValueError is
handled), because line 82 tests `timestamp`, not the computed `val`. -/
theorem parse_datetime_int_vs_numeric_string (dateParse : String → Option ℚ)
    (now : Int) :
    parse_datetime dateParse now (.jint 2147483647) = ([], .ok ((2147483647 : Int) : ℚ))
  ∧ parse_datetime dateParse now (.jint 2147483648) =
      ([], .ok (((2147483648 : Int) : ℚ) / 1000))
  ∧ parse_datetime dateParse now (.jstr "1000") =
      ([], .error (.typeError "gt not supported between instances of str and int"))
  ∧ strToInt "1000" = some 1000 :=
  ⟨rfl, rfl, rfl, by decide⟩

/-- Claim C4.  A string timestamp that parses neither as a number nor as
a date makes `parse_datetime` raise a parsing error naming the offending
input (the ValueError of the date parser carries the input), after logging the
failed int and float interpretation attempts at error level; it never
falls back to a default instant. -/
theorem parse_datetime_unparseable_string_raises (dateParse : String → Option ℚ)
    (now : Int) (s : String)
    (hint : strToInt s = none) (hflt : strToRat s = none) (hdate : dateParse s = none) :
    parse_datetime dateParse now (.jstr s) =
      ([.logFailedParseTimestamp (.jstr s)
          (.valueError ("invalid literal for int with base 10: " ++ s)),
        .logFailedParseTimestamp (.jstr s)
          (.valueError ("could not convert string to float: " ++ s))],
       .error (.valueError ("Unknown string format: " ++ s))) := by
  have h1 : pdAttemptInt (.jstr s) =
      .error (.valueError ("invalid literal for int with base 10: " ++ s)) := by
    simp [pdAttemptInt, pyInt, hint]
  have h2 : pdAttemptMillis (.jstr s) =
      .error (.valueError ("could not convert string to float: " ++ s)) := by
    simp [pdAttemptMillis, pyFloat, hflt]
  have h3 : pdAttemptDateutil dateParse (.jstr s) =
      .error (.valueError ("Unknown string format: " ++ s)) := by
    simp [pdAttemptDateutil, hdate]
  simp [parse_datetime, h1, h2, h3, PyExc.isValueError]

/-- Witness for C4 at the concrete input "garbage". -/
theorem parse_datetime_unparseable_string_raises_witness :
    (strToInt "garbage" = none ∧ strToRat "garbage" = none ∧ noDateParse "garbage" = none)
  ∧ parse_datetime noDateParse 0 (.jstr "garbage") =
      ([.logFailedParseTimestamp (.jstr "garbage")
          (.valueError ("invalid literal for int with base 10: " ++ "garbage")),
        .logFailedParseTimestamp (.jstr "garbage")
          (.valueError ("could not convert string to float: " ++ "garbage"))],
       .error (.valueError ("Unknown string format: " ++ "garbage"))) :=
  ⟨⟨by decide, by decide, rfl⟩,
   parse_datetime_unparseable_string_raises noDateParse 0 "garbage"
     (by decide) (by decide) rfl⟩

/-- Claim C5, corrected.  A non-JSON payload on the telemetry subject is
dropped with exactly one error-level log entry, no sink call and no
escaping exception; but on the device-lifecycle subject the decode error
escapes `handle_event_devices` (line 159 has no try/except), with no log
entry at all. -/
theorem malformed_json_handling (dateParse : String → Option ℚ) (db : Db)
    (now : Int) (tenant : String) :
    handle_event_data dateParse db now tenant none = ([.logNotValidJson], .ok ())
  ∧ Event.level .logNotValidJson = some .error
  ∧ sinkCalls [Event.logNotValidJson] = []
  ∧ handle_event_devices dateParse db now tenant none =
      ([], .error (.valueError "Expecting value")) :=
  ⟨rfl, rfl, rfl, rfl⟩

/-- Counterexample to C5 as stated: at the concrete non-JSON payload on
the device-lifecycle subject, the handler neither logs nor returns
normally - the decode error escapes. -/
theorem devices_malformed_json_escapes_cex :
    (handle_event_devices noDateParse allOkDb 0 "tenantA" none).2 =
      .error (.valueError "Expecting value")
  ∧ (handle_event_devices noDateParse allOkDb 0 "tenantA" none).1 = [] :=
  ⟨rfl, rfl⟩

/-- Claim C2, corrected.  On the event path an error raised by
`create_indexes` is NOT caught: it propagates out of
`handle_event_devices`, whose whole trace contains no warning log;
provisioning errors are logged as a warning and swallowed only on the
`init_mongodb` startup path. -/
theorem create_indexes_error_propagation (dateParse : String → Option ℚ)
    (db : Db) (now : Int) (tenant : String) (data ev : JVal) (coll : String)
    (e : PyExc) (cevs : List Event)
    (hev : pyGetItem data "event" = .ok ev)
    (hconf : ev.eqStr "configure" = false)
    (hcoll : collNameOfLifecycle data = .ok coll)
    (hfail : create_indexes db coll = (cevs, .error e)) :
    handle_event_devices dateParse db now tenant (some data) =
      (Event.logGotDeviceEvent data :: cevs, .error e)
  ∧ (∀ x ∈ Event.logGotDeviceEvent data :: cevs, Event.level x ≠ some .warn)
  ∧ (∀ cf, (init_mongodb db cf (some coll)).2 = .ok ())
  ∧ Event.logCouldNotInitMongo e ∈ (init_mongodb db none (some coll)).1 := by
  refine ⟨?_, ?_, ?_, ?_⟩
  · simp [handle_event_devices, hev, hconf, hcoll, hfail]
  · intro x hx
    rcases List.mem_cons.mp hx with rfl | hx2
    · intro h; cases h
    · have h1 : x ∈ (create_indexes db coll).1 := by rw [hfail]; exact hx2
      have h2 := create_indexes_events_db_only db coll x h1
      rw [h2]; intro h; cases h
  · intro cf
    rcases cf with _ | e2 <;> simp [init_mongodb, hfail]
  · simp [init_mongodb, hfail]

/-- Counterexample to C2 as stated: with a database whose index creation
raises, the non-configure lifecycle event makes `handle_event_devices`
end in the storage error (nothing is swallowed and no warning logged). -/
theorem handle_event_devices_create_indexes_error_escapes_cex :
    handle_event_devices noDateParse ciFailDb 0 "tenantA" (some createMsg) =
      ([.logGotDeviceEvent createMsg, .dbCreateIndexTsDesc "tenantA_dev1"],
       .error (.dbError "boom"))
  ∧ Event.level (.dbCreateIndexTsDesc "tenantA_dev1") ≠ some .warn
  ∧ Event.level (.logGotDeviceEvent createMsg) ≠ some .warn := by
  refine ⟨rfl, ?_, ?_⟩ <;> (intro h; cases h)

/-- Witness for the amended C2 at a concrete event and failing store. -/
theorem create_indexes_error_propagation_witness :
    (pyGetItem createMsg "event" = .ok (.jstr "create")
     ∧ JVal.eqStr (.jstr "create") "configure" = false
     ∧ collNameOfLifecycle createMsg = .ok "tenantA_dev1"
     ∧ create_indexes ciFailDb "tenantA_dev1" =
         ([.dbCreateIndexTsDesc "tenantA_dev1"], .error (.dbError "boom")))
  ∧ (handle_event_devices noDateParse ciFailDb 0 "tenantA" (some createMsg) =
       (Event.logGotDeviceEvent createMsg :: [.dbCreateIndexTsDesc "tenantA_dev1"],
        .error (.dbError "boom"))
     ∧ (∀ x ∈ Event.logGotDeviceEvent createMsg ::
          [Event.dbCreateIndexTsDesc "tenantA_dev1"], Event.level x ≠ some .warn)
     ∧ (∀ cf, (init_mongodb ciFailDb cf (some "tenantA_dev1")).2 = .ok ())
     ∧ Event.logCouldNotInitMongo (.dbError "boom") ∈
         (init_mongodb ciFailDb none (some "tenantA_dev1")).1) :=
  ⟨⟨rfl, rfl, rfl, rfl⟩,
   create_indexes_error_propagation noDateParse ciFailDb 0 "tenantA" createMsg
     (.jstr "create") "tenantA_dev1" (.dbError "boom")
     [.dbCreateIndexTsDesc "tenantA_dev1"] rfl rfl rfl rfl⟩

/-- Claim C6.  A device-lifecycle event whose discriminator is not
"configure" triggers exactly the two index-provisioning calls on the
collection named meta.service ++ "_" ++ data.id, and no document is
inserted (the trace contains no sink call). -/
theorem non_configure_event_provisions_indexes_only (dateParse : String → Option ℚ)
    (db : Db) (now : Int) (tenant : String) (data mv dv ev : JVal)
    (service devid : String)
    (hev : pyGetItem data "event" = .ok ev)
    (hconf : ev.eqStr "configure" = false)
    (hmv : pyGetItem data "meta" = .ok mv)
    (hsv : pyGetItem mv "service" = .ok (.jstr service))
    (hdv : pyGetItem data "data" = .ok dv)
    (hid : pyGetItem dv "id" = .ok (.jstr devid))
    (hts : db.failCreateIndexTsDesc (service ++ "_" ++ devid) = none)
    (httl : db.failCreateIndexTtl (service ++ "_" ++ devid) = none) :
    handle_event_devices dateParse db now tenant (some data) =
      ([.logGotDeviceEvent data, .dbCreateIndexTsDesc (service ++ "_" ++ devid),
        .dbCreateIndexTtl (service ++ "_" ++ devid)], .ok ())
  ∧ sinkCalls [Event.logGotDeviceEvent data,
      Event.dbCreateIndexTsDesc (service ++ "_" ++ devid),
      Event.dbCreateIndexTtl (service ++ "_" ++ devid)] = [] := by
  have hcoll : collNameOfLifecycle data = .ok (service ++ "_" ++ devid) := by
    simp [collNameOfLifecycle, hmv, hsv, hdv, hid, pyStr]
  constructor
  · simp [handle_event_devices, hev, hconf, hcoll, create_indexes, hts, httl]
  · rfl

/-- Witness for C6 at a concrete create event. -/
theorem non_configure_event_provisions_indexes_only_witness :
    (pyGetItem createMsg "event" = .ok (.jstr "create")
     ∧ JVal.eqStr (.jstr "create") "configure" = false
     ∧ pyGetItem createMsg "meta" = .ok (.jobj [("service", .jstr "tenantA")])
     ∧ pyGetItem (.jobj [("service", .jstr "tenantA")]) "service" = .ok (.jstr "tenantA")
     ∧ pyGetItem createMsg "data" = .ok (.jobj [("id", .jstr "dev1")])
     ∧ pyGetItem (.jobj [("id", .jstr "dev1")]) "id" = .ok (.jstr "dev1")
     ∧ allOkDb.failCreateIndexTsDesc ("tenantA" ++ "_" ++ "dev1") = none
     ∧ allOkDb.failCreateIndexTtl ("tenantA" ++ "_" ++ "dev1") = none)
  ∧ (handle_event_devices noDateParse allOkDb 0 "tenantA" (some createMsg) =
       ([.logGotDeviceEvent createMsg, .dbCreateIndexTsDesc ("tenantA" ++ "_" ++ "dev1"),
         .dbCreateIndexTtl ("tenantA" ++ "_" ++ "dev1")], .ok ())
     ∧ sinkCalls [Event.logGotDeviceEvent createMsg,
         Event.dbCreateIndexTsDesc ("tenantA" ++ "_" ++ "dev1"),
         Event.dbCreateIndexTtl ("tenantA" ++ "_" ++ "dev1")] = []) :=
  ⟨⟨rfl, rfl, rfl, rfl, rfl, rfl, rfl, rfl⟩,
   non_configure_event_provisions_indexes_only noDateParse allOkDb 0 "tenantA"
     createMsg (.jobj [("service", .jstr "tenantA")]) (.jobj [("id", .jstr "dev1")])
     (.jstr "create") "tenantA" "dev1" rfl rfl rfl rfl rfl rfl rfl rfl⟩

/-- Claim C8.  A well-formed telemetry event with empty attrs and no
status builds no documents: the sink is never called and the outcome is
logged at info level (the "got empty event" message). -/
theorem empty_event_not_persisted (dateParse : String → Option ℚ) (db : Db)
    (now : Int) (tenant : String) (data metadata device_id tsv : JVal)
    (tlogs : List Event) (ts : ℚ)
    (hmd : pyGet data "metadata" = .ok metadata) (hmdn : metadata.isNull = false)
    (hdev : pyGet metadata "deviceid" = .ok device_id)
    (hdevn : device_id.isNull = false)
    (htv : pyGet metadata "timestamp" = .ok tsv)
    (hts : parse_datetime dateParse now tsv = (tlogs, .ok ts))
    (hattrs : pyGetD data "attrs" (.jobj []) = .ok (.jobj []))
    (hst : pyGet metadata "status" = .ok .jnull) :
    handle_event_data dateParse db now tenant (some data) =
      ([Event.logThisIsTheData data, Event.logGotDataEvent] ++ tlogs ++
        [.logGotEmptyEvent device_id], .ok ())
  ∧ (∀ x ∈ [Event.logThisIsTheData data, Event.logGotDataEvent] ++ tlogs ++
        [Event.logGotEmptyEvent device_id], x.isSinkCall = false)
  ∧ Event.level (.logGotEmptyEvent device_id) = some .info := by
  have hbd : build_docs data metadata device_id ts = .ok [] := by
    simp [build_docs, hattrs, hst, pyKeys, JVal.isNull, attrLoop]
  refine ⟨?_, ?_, rfl⟩
  · simp [handle_event_data, hmd, hmdn, hdev, hdevn, htv, hts, hbd]
  · intro x hx
    rcases List.mem_append.mp hx with hx1 | hx2
    · rcases List.mem_append.mp hx1 with hx3 | hx4
      · simp only [List.mem_cons, List.not_mem_nil, or_false] at hx3
        rcases hx3 with rfl | rfl <;> rfl
      · exact (parse_datetime_events_error_logs dateParse now tsv x
          (by rw [hts]; exact hx4)).2
    · simp only [List.mem_cons, List.not_mem_nil, or_false] at hx2
      rcases hx2 with rfl
      rfl

/-- Witness for C8 at a concrete empty event. -/
theorem empty_event_not_persisted_witness :
    (pyGet emptyAttrsMsg "metadata" = .ok (.jobj [("deviceid", .jstr "dev1")])
     ∧ JVal.isNull (.jobj [("deviceid", .jstr "dev1")]) = false
     ∧ pyGet (.jobj [("deviceid", .jstr "dev1")]) "deviceid" = .ok (.jstr "dev1")
     ∧ JVal.isNull (.jstr "dev1") = false
     ∧ pyGet (.jobj [("deviceid", .jstr "dev1")]) "timestamp" = .ok .jnull
     ∧ parse_datetime noDateParse 0 .jnull = ([], .ok ((0 : Int) : ℚ))
     ∧ pyGetD emptyAttrsMsg "attrs" (.jobj []) = .ok (.jobj [])
     ∧ pyGet (.jobj [("deviceid", .jstr "dev1")]) "status" = .ok .jnull)
  ∧ (handle_event_data noDateParse allOkDb 0 "tenantA" (some emptyAttrsMsg) =
       ([Event.logThisIsTheData emptyAttrsMsg, Event.logGotDataEvent] ++ [] ++
         [.logGotEmptyEvent (.jstr "dev1")], .ok ())
     ∧ (∀ x ∈ [Event.logThisIsTheData emptyAttrsMsg, Event.logGotDataEvent] ++ [] ++
         [Event.logGotEmptyEvent (.jstr "dev1")], x.isSinkCall = false)
     ∧ Event.level (.logGotEmptyEvent (.jstr "dev1")) = some .info) :=
  ⟨⟨rfl, rfl, rfl, rfl, rfl, rfl, rfl, rfl⟩,
   empty_event_not_persisted noDateParse allOkDb 0 "tenantA" emptyAttrsMsg
     (.jobj [("deviceid", .jstr "dev1")]) (.jstr "dev1") .jnull [] ((0 : Int) : ℚ)
     rfl rfl rfl rfl rfl rfl rfl rfl⟩

/-- Claim C9.  A telemetry event with metadata and deviceid whose attrs
key is entirely absent raises nothing: attrs is treated as the empty
mapping, and with a status present the persisted batch is exactly the one
status document. -/
theorem absent_attrs_treated_as_empty (dateParse : String → Option ℚ) (db : Db)
    (now : Int) (tenant : String) (fs : List (String × JVal))
    (metadata device_id tsv st : JVal) (tlogs : List Event) (ts : ℚ)
    (habs : lookupFirst fs "attrs" = none)
    (hmd : pyGet (.jobj fs) "metadata" = .ok metadata)
    (hmdn : metadata.isNull = false)
    (hdev : pyGet metadata "deviceid" = .ok device_id)
    (hdevn : device_id.isNull = false)
    (htv : pyGet metadata "timestamp" = .ok tsv)
    (hts : parse_datetime dateParse now tsv = (tlogs, .ok ts))
    (hst : pyGet metadata "status" = .ok st) (hstn : st.isNull = false)
    (hdb : db.failInsertMany (tenant ++ "_" ++ pyStr device_id)
        [Doc.statusDoc st device_id ts] = none) :
    handle_event_data dateParse db now tenant (some (.jobj fs)) =
      ([Event.logThisIsTheData (.jobj fs), Event.logGotDataEvent] ++ tlogs ++
        [.dbInsertMany (tenant ++ "_" ++ pyStr device_id)
          [.statusDoc st device_id ts]], .ok ()) := by
  have hbd : build_docs (.jobj fs) metadata device_id ts =
      .ok [.statusDoc st device_id ts] := by
    simp [build_docs, pyGetD, habs, hst, hstn, pyKeys, attrLoop]
  simp [handle_event_data, hmd, hmdn, hdev, hdevn, htv, hts, hbd, hdb]

/-- Witness for C9 at a concrete status-only event. -/
theorem absent_attrs_treated_as_empty_witness :
    (lookupFirst [("metadata",
        JVal.jobj [("deviceid", .jstr "dev1"), ("status", .jstr "online")])] "attrs" = none
     ∧ pyGet statusOnlyMsg "metadata" =
         .ok (.jobj [("deviceid", .jstr "dev1"), ("status", .jstr "online")])
     ∧ pyGet (.jobj [("deviceid", .jstr "dev1"), ("status", .jstr "online")]) "deviceid" =
         .ok (.jstr "dev1")
     ∧ pyGet (.jobj [("deviceid", .jstr "dev1"), ("status", .jstr "online")]) "timestamp" =
         .ok .jnull
     ∧ parse_datetime noDateParse 0 .jnull = ([], .ok ((0 : Int) : ℚ))
     ∧ pyGet (.jobj [("deviceid", .jstr "dev1"), ("status", .jstr "online")]) "status" =
         .ok (.jstr "online")
     ∧ allOkDb.failInsertMany ("tenantA" ++ "_" ++ pyStr (.jstr "dev1"))
         [Doc.statusDoc (.jstr "online") (.jstr "dev1") ((0 : Int) : ℚ)] = none)
  ∧ handle_event_data noDateParse allOkDb 0 "tenantA" (some (.jobj [("metadata",
      JVal.jobj [("deviceid", .jstr "dev1"), ("status", .jstr "online")])])) =
      ([Event.logThisIsTheData (.jobj [("metadata",
          JVal.jobj [("deviceid", .jstr "dev1"), ("status", .jstr "online")])]),
        Event.logGotDataEvent] ++ [] ++
        [.dbInsertMany ("tenantA" ++ "_" ++ pyStr (.jstr "dev1"))
          [.statusDoc (.jstr "online") (.jstr "dev1") ((0 : Int) : ℚ)]], .ok ()) :=
  ⟨⟨rfl, rfl, rfl, rfl, rfl, rfl, rfl⟩,
   absent_attrs_treated_as_empty noDateParse allOkDb 0 "tenantA"
     [("metadata", JVal.jobj [("deviceid", .jstr "dev1"), ("status", .jstr "online")])]
     (.jobj [("deviceid", .jstr "dev1"), ("status", .jstr "online")])
     (.jstr "dev1") .jnull (.jstr "online") [] ((0 : Int) : ℚ)
     rfl rfl rfl rfl rfl rfl rfl rfl rfl rfl⟩

/-- In an association list with pairwise-distinct keys, looking up the
key of a member yields the value of that member. -/
theorem lookupFirst_nodup_mem (ats : List (String × JVal))
    (h : (ats.map Prod.fst).Nodup) (kv : String × JVal) (hkv : kv ∈ ats) :
    lookupFirst ats kv.1 = some kv.2 := by
  induction ats with
  | nil => cases hkv
  | cons hd tl ih =>
    rw [List.map_cons, List.nodup_cons] at h
    rcases List.mem_cons.mp hkv with rfl | hmem
    · simp [lookupFirst]
    · have hne : hd.1 ≠ kv.1 := by
        intro hEq
        have hmem2 : kv.1 ∈ tl.map Prod.fst := List.mem_map_of_mem Prod.fst hmem
        rw [← hEq] at hmem2
        exact h.1 hmem2
      simp [lookupFirst, hne, ih h.2 hmem]

/-- The per-attribute document loop: iterating over the keys of the
attrs dict and fetching each value by indexing produces exactly one
attribute document per entry. -/
theorem attrLoop_eq (data : JVal) (ats : List (String × JVal))
    (ha2 : pyGetItem data "attrs" = .ok (.jobj ats)) (device_id : JVal) (ts : ℚ)
    (l : List (String × JVal))
    (hl : ∀ kv ∈ l, lookupFirst ats kv.1 = some kv.2) :
    attrLoop data device_id ts (l.map Prod.fst) =
      .ok (l.map fun kv => Doc.attrDoc kv.1 kv.2 device_id ts) := by
  induction l with
  | nil => rfl
  | cons hd tl ih =>
    have h1 : pyGetItem (JVal.jobj ats) hd.1 = .ok hd.2 := by
      simp [pyGetItem, hl hd (List.mem_cons_self hd tl)]
    have h2 := ih (fun kv hkv => hl kv (List.mem_cons_of_mem hd hkv))
    simp only [List.map_cons, attrLoop]
    rw [ha2]
    simp only [except_bind_ok]
    rw [h1]
    simp only [except_bind_ok]
    rw [h2]
    simp only [except_bind_ok, except_pure_eq]

/-- Claim C7.  A well-formed telemetry event whose attrs mapping has n
entries and whose metadata has no status yields exactly n attribute
documents and 0 status documents, all carrying the one normalized
timestamp, inserted as a single batch. -/
theorem telemetry_attr_fanout (dateParse : String → Option ℚ) (db : Db)
    (now : Int) (tenant : String) (data metadata device_id tsv : JVal)
    (ats : List (String × JVal)) (tlogs : List Event) (ts : ℚ)
    (hmd : pyGet data "metadata" = .ok metadata) (hmdn : metadata.isNull = false)
    (hdev : pyGet metadata "deviceid" = .ok device_id)
    (hdevn : device_id.isNull = false)
    (htv : pyGet metadata "timestamp" = .ok tsv)
    (hts : parse_datetime dateParse now tsv = (tlogs, .ok ts))
    (hattrs : pyGetD data "attrs" (.jobj []) = .ok (.jobj ats))
    (hattrs2 : pyGetItem data "attrs" = .ok (.jobj ats))
    (hnd : (ats.map Prod.fst).Nodup)
    (hne : ats ≠ [])
    (hst : pyGet metadata "status" = .ok .jnull)
    (hdb : db.failInsertMany (tenant ++ "_" ++ pyStr device_id)
        (ats.map fun kv => Doc.attrDoc kv.1 kv.2 device_id ts) = none) :
    handle_event_data dateParse db now tenant (some data) =
      ([Event.logThisIsTheData data, Event.logGotDataEvent] ++ tlogs ++
        [.dbInsertMany (tenant ++ "_" ++ pyStr device_id)
          (ats.map fun kv => Doc.attrDoc kv.1 kv.2 device_id ts)], .ok ())
  ∧ (ats.map fun kv => Doc.attrDoc kv.1 kv.2 device_id ts).length = ats.length
  ∧ (∀ d ∈ ats.map fun kv => Doc.attrDoc kv.1 kv.2 device_id ts,
       d.ts = ts ∧ d.isAttrDoc = true) := by
  have hmm := attrLoop_eq data ats hattrs2 device_id ts ats
    (fun kv hkv => lookupFirst_nodup_mem ats hnd kv hkv)
  have hbd : build_docs data metadata device_id ts =
      .ok (ats.map fun kv => Doc.attrDoc kv.1 kv.2 device_id ts) := by
    simp [build_docs, hattrs, pyKeys, hmm, hst, JVal.isNull]
  have hdocsne : (ats.map fun kv => Doc.attrDoc kv.1 kv.2 device_id ts) ≠ [] := by
    simpa using hne
  refine ⟨?_, by simp, ?_⟩
  · simp [handle_event_data, hmd, hmdn, hdev, hdevn, htv, hts, hbd, hdb, hdocsne]
  · intro d hd
    rcases List.mem_map.mp hd with ⟨kv, _, rfl⟩
    exact ⟨rfl, rfl⟩

/-- Witness for C7 at a concrete two-attribute event. -/
theorem telemetry_attr_fanout_witness :
    (pyGet twoAttrsMsg "metadata" = .ok (.jobj [("deviceid", .jstr "dev1")])
     ∧ pyGet (.jobj [("deviceid", .jstr "dev1")]) "deviceid" = .ok (.jstr "dev1")
     ∧ pyGet (.jobj [("deviceid", .jstr "dev1")]) "timestamp" = .ok .jnull
     ∧ parse_datetime noDateParse 0 .jnull = ([], .ok ((0 : Int) : ℚ))
     ∧ pyGetD twoAttrsMsg "attrs" (.jobj []) =
         .ok (.jobj [("temp", .jint 10), ("hum", .jint 50)])
     ∧ pyGetItem twoAttrsMsg "attrs" =
         .ok (.jobj [("temp", .jint 10), ("hum", .jint 50)])
     ∧ (([("temp", JVal.jint 10), ("hum", JVal.jint 50)]).map Prod.fst).Nodup
     ∧ [("temp", JVal.jint 10), ("hum", JVal.jint 50)] ≠ []
     ∧ pyGet (.jobj [("deviceid", .jstr "dev1")]) "status" = .ok .jnull)
  ∧ (handle_event_data noDateParse allOkDb 0 "tenantA" (some twoAttrsMsg) =
       ([Event.logThisIsTheData twoAttrsMsg, Event.logGotDataEvent] ++ [] ++
         [.dbInsertMany ("tenantA" ++ "_" ++ pyStr (.jstr "dev1"))
           (([("temp", JVal.jint 10), ("hum", JVal.jint 50)]).map
             fun kv => Doc.attrDoc kv.1 kv.2 (.jstr "dev1") ((0 : Int) : ℚ))], .ok ())
     ∧ (([("temp", JVal.jint 10), ("hum", JVal.jint 50)]).map
         fun kv => Doc.attrDoc kv.1 kv.2 (.jstr "dev1") ((0 : Int) : ℚ)).length =
         ([("temp", JVal.jint 10), ("hum", JVal.jint 50)]).length
     ∧ (∀ d ∈ ([("temp", JVal.jint 10), ("hum", JVal.jint 50)]).map
         fun kv => Doc.attrDoc kv.1 kv.2 (.jstr "dev1") ((0 : Int) : ℚ),
           d.ts = ((0 : Int) : ℚ) ∧ d.isAttrDoc = true)) :=
  ⟨⟨rfl, rfl, rfl, rfl, rfl, rfl, by decide, List.cons_ne_nil _ _, rfl⟩,
   telemetry_attr_fanout noDateParse allOkDb 0 "tenantA" twoAttrsMsg
     (.jobj [("deviceid", .jstr "dev1")]) (.jstr "dev1") .jnull
     [("temp", .jint 10), ("hum", .jint 50)] [] ((0 : Int) : ℚ)
     rfl rfl rfl rfl rfl rfl rfl rfl (by decide) (List.cons_ne_nil _ _) rfl rfl⟩

/-- Counterexample to C3 as stated: the configure event carrying
meta.service = "tenantA" is persisted into collection "tenantB_dev1"
when the handler is invoked with tenant argument "tenantB" - the
collection is not named from meta.service. -/
theorem configure_collection_from_tenant_arg_cex :
    handle_event_devices noDateParse allOkDb 1700000000 "tenantB"
        (some (cfgMsgOf "tenantA" "dev1" "fw" (.jstr "1.2"))) =
      ([.logGotDeviceEvent (cfgMsgOf "tenantA" "dev1" "fw" (.jstr "1.2")),
        .logNewMessage (cfgReshapedOf 1700000000 "tenantA" "dev1" "fw" (.jstr "1.2")),
        .logThisIsTheData (cfgReshapedOf 1700000000 "tenantA" "dev1" "fw" (.jstr "1.2")),
        .logGotDataEvent,
        .dbInsertMany "tenantB_dev1"
          [.attrDoc "fw" (.jstr "1.2") (.jstr "dev1")
            (((1700000000 * 1000 : Int) : ℚ) / 1000)]], .ok ())
  ∧ sinkCalls
      [.logGotDeviceEvent (cfgMsgOf "tenantA" "dev1" "fw" (.jstr "1.2")),
       .logNewMessage (cfgReshapedOf 1700000000 "tenantA" "dev1" "fw" (.jstr "1.2")),
       .logThisIsTheData (cfgReshapedOf 1700000000 "tenantA" "dev1" "fw" (.jstr "1.2")),
       .logGotDataEvent,
       .dbInsertMany "tenantB_dev1"
         [.attrDoc "fw" (.jstr "1.2") (.jstr "dev1")
           (((1700000000 * 1000 : Int) : ℚ) / 1000)]] =
      [("tenantB_dev1",
        [.attrDoc "fw" (.jstr "1.2") (.jstr "dev1")
          (((1700000000 * 1000 : Int) : ℚ) / 1000)])]
  ∧ "tenantB_dev1" ≠ "tenantA_dev1" :=
  ⟨rfl, rfl, by decide⟩

/-- Claim C3, corrected.  The configure event is reshaped exactly as the
claim says (data.attrs to attrs, data.id to metadata.deviceid,
meta.service to metadata.tenant, current instant injected) and exactly
one attribute document with the processing-instant timestamp is
persisted; but the target collection is named from the tenant
ARGUMENT and data.id, not from meta.service (it equals "tenantA_dev1"
only when the delivered tenant argument is "tenantA"). -/
theorem configure_event_reshape_persist (dateParse : String → Option ℚ)
    (db : Db) (now : Int) (tenant service devid aname : String) (aval : JVal)
    (hbig : (2 ^ 31 - 1 : Int) < now * 1000)
    (hdb : db.failInsertMany (tenant ++ "_" ++ devid)
        [Doc.attrDoc aname aval (.jstr devid) (((now * 1000 : Int) : ℚ) / 1000)] = none) :
    handle_event_devices dateParse db now tenant
        (some (cfgMsgOf service devid aname aval)) =
      ([.logGotDeviceEvent (cfgMsgOf service devid aname aval),
        .logNewMessage (cfgReshapedOf now service devid aname aval),
        .logThisIsTheData (cfgReshapedOf now service devid aname aval),
        .logGotDataEvent,
        .dbInsertMany (tenant ++ "_" ++ devid)
          [.attrDoc aname aval (.jstr devid) (((now * 1000 : Int) : ℚ) / 1000)]],
       .ok ())
  ∧ ((now * 1000 : Int) : ℚ) / 1000 = (now : ℚ) := by
  have h1 : pmBuild now (cfgMsgOf service devid aname aval) =
      .ok (cfgReshapedOf now service devid aname aval) := rfl
  have h2 : parse_datetime dateParse now (.jint (now * 1000)) =
      ([], .ok (((now * 1000 : Int) : ℚ) / 1000)) := by
    simp only [parse_datetime, pdAttemptInt, pyInt, pyGtInt, except_bind_ok,
      decide_eq_true_eq, hbig, ite_true, except_pure_eq]
  have hm : pyGet (cfgReshapedOf now service devid aname aval) "metadata" =
      .ok (.jobj [("timestamp", .jint (now * 1000)), ("deviceid", .jstr devid),
                  ("tenant", .jstr service)]) := rfl
  have hd : pyGet (JVal.jobj [("timestamp", .jint (now * 1000)),
      ("deviceid", .jstr devid), ("tenant", .jstr service)]) "deviceid" =
      .ok (.jstr devid) := rfl
  have ht : pyGet (JVal.jobj [("timestamp", .jint (now * 1000)),
      ("deviceid", .jstr devid), ("tenant", .jstr service)]) "timestamp" =
      .ok (.jint (now * 1000)) := rfl
  have hst : pyGet (JVal.jobj [("timestamp", .jint (now * 1000)),
      ("deviceid", .jstr devid), ("tenant", .jstr service)]) "status" =
      .ok .jnull := rfl
  have hbdc : build_docs (cfgReshapedOf now service devid aname aval)
      (.jobj [("timestamp", .jint (now * 1000)), ("deviceid", .jstr devid),
              ("tenant", .jstr service)])
      (.jstr devid) (((now * 1000 : Int) : ℚ) / 1000) =
      .ok [.attrDoc aname aval (.jstr devid) (((now * 1000 : Int) : ℚ) / 1000)] := by
    simp only [build_docs, cfgReshapedOf, pyGetD, pyGetItem, pyKeys, lookupFirst,
      attrLoop, hst, JVal.isNull, except_bind_ok, except_bind_err, except_pure_eq,
      String.reduceEq, reduceIte, ite_true, ite_false, eq_self_iff_true,
      List.map_cons, List.map_nil]
  have h3 : handle_event_data dateParse db now tenant
      (some (cfgReshapedOf now service devid aname aval)) =
      ([.logThisIsTheData (cfgReshapedOf now service devid aname aval),
        .logGotDataEvent,
        .dbInsertMany (tenant ++ "_" ++ devid)
          [.attrDoc aname aval (.jstr devid) (((now * 1000 : Int) : ℚ) / 1000)]],
       .ok ()) := by
    simp only [handle_event_data, hm, hd, ht, h2, hbdc, hdb, JVal.isNull, pyStr,
      Bool.false_eq_true, ite_false, ite_true, List.isEmpty_cons,
      List.cons_append, List.nil_append, List.append_nil]
  have hev : pyGetItem (cfgMsgOf service devid aname aval) "event" =
      .ok (.jstr "configure") := rfl
  have hcf : JVal.eqStr (.jstr "configure") "configure" = true := rfl
  constructor
  · simp only [handle_event_devices, hev, hcf, parse_message, h1, h3, ite_true,
      List.cons_append, List.nil_append, List.append_nil]
  · push_cast
    field_simp

/-- Witness for the amended C3 at concrete inputs (tenant argument equal
to meta.service, as delivered by the bus in production). -/
theorem configure_event_reshape_persist_witness :
    ((2 ^ 31 - 1 : Int) < 1700000000 * 1000
     ∧ allOkDb.failInsertMany ("tenantA" ++ "_" ++ "dev1")
         [Doc.attrDoc "fw" (.jstr "1.2") (.jstr "dev1")
           (((1700000000 * 1000 : Int) : ℚ) / 1000)] = none)
  ∧ (handle_event_devices noDateParse allOkDb 1700000000 "tenantA"
        (some (cfgMsgOf "tenantA" "dev1" "fw" (.jstr "1.2"))) =
      ([.logGotDeviceEvent (cfgMsgOf "tenantA" "dev1" "fw" (.jstr "1.2")),
        .logNewMessage (cfgReshapedOf 1700000000 "tenantA" "dev1" "fw" (.jstr "1.2")),
        .logThisIsTheData (cfgReshapedOf 1700000000 "tenantA" "dev1" "fw" (.jstr "1.2")),
        .logGotDataEvent,
        .dbInsertMany ("tenantA" ++ "_" ++ "dev1")
          [.attrDoc "fw" (.jstr "1.2") (.jstr "dev1")
            (((1700000000 * 1000 : Int) : ℚ) / 1000)]],
       .ok ())
     ∧ ((1700000000 * 1000 : Int) : ℚ) / 1000 = ((1700000000 : Int) : ℚ)) :=
  ⟨⟨by decide, rfl⟩,
   configure_event_reshape_persist noDateParse allOkDb 1700000000 "tenantA"
     "tenantA" "dev1" "fw" (.jstr "1.2") (by decide) rfl⟩


/-- Looking up `k` in an association list whose entries at key `t` have
had their values mapped by `f`: only the value at `t` changes. -/
theorem lookupFirst_upd (fields : List (String × JVal)) (t : String)
    (f : JVal → JVal) (k : String) :
    lookupFirst (fields.map fun kv => if kv.1 = t then (kv.1, f kv.2) else kv) k =
      if k = t then (lookupFirst fields k).map f else lookupFirst fields k := by
  induction fields with
  | nil => by_cases hk : k = t <;> simp [lookupFirst, hk]
  | cons hd tl ih =>
    simp only [List.map_cons]
    by_cases hdk : hd.1 = k
    · by_cases hkt : k = t
      · subst hkt
        simp [lookupFirst, hdk]
      · have hht : ¬hd.1 = t := fun h => hkt (hdk.symm.trans h)
        simp [lookupFirst, hht, hdk, hkt]
    · by_cases hht : hd.1 = t
      · have htk : ¬t = k := fun h => hdk (hht.trans h)
        have hkt : ¬k = t := fun h => htk h.symm
        simp [lookupFirst, hht, hdk, htk, hkt, ih]
      · simp [lookupFirst, hht, hdk, ih]

/-- Mapping a stored value does not change whether a value is None. -/
theorem updValue_isNull (t : String) (f : JVal → JVal) (m : JVal) :
    (updValue t f m).isNull = m.isNull := by
  cases m <;> rfl

/-- Python `d.get(k, dflt)` ignores a value update at any other key. -/
theorem pyGetD_updValue (t : String) (f : JVal → JVal) (m : JVal) (k : String)
    (d : JVal) (hk : ¬k = t) : pyGetD (updValue t f m) k d = pyGetD m k d := by
  cases m with
  | jnull => rfl
  | jbool b => rfl
  | jint n => rfl
  | jstr s => rfl
  | jarr es => rfl
  | jobj fields => simp [updValue, pyGetD, lookupFirst_upd, hk]

/-- Python `d[k]` ignores a value update at any other key. -/
theorem pyGetItem_updValue (t : String) (f : JVal → JVal) (m : JVal) (k : String)
    (hk : ¬k = t) : pyGetItem (updValue t f m) k = pyGetItem m k := by
  cases m with
  | jnull => rfl
  | jbool b => rfl
  | jint n => rfl
  | jstr s => rfl
  | jarr es => rfl
  | jobj fields => simp [updValue, pyGetItem, lookupFirst_upd, hk]

/-- Python `d.get(k, None)` ignores a value update at any other key. -/
theorem pyGet_updValue (t : String) (f : JVal → JVal) (m : JVal) (k : String)
    (hk : ¬k = t) : pyGet (updValue t f m) k = pyGet m k :=
  pyGetD_updValue t f m k .jnull hk

/-- Python `d.get(t, None)` after updating the value at `t` is the original
lookup with `f` applied, provided `f` fixes None (the missing-key
default). -/
theorem pyGet_updValue_self (t : String) (f : JVal → JVal) (d : JVal)
    (hf : f .jnull = .jnull) :
    pyGet (updValue t f d) t = (pyGet d t).map f := by
  cases d with
  | jnull => rfl
  | jbool b => rfl
  | jint n => rfl
  | jstr s => rfl
  | jarr es => rfl
  | jobj fields =>
    simp only [updValue, pyGet, pyGetD, lookupFirst_upd, if_pos rfl]
    cases lookupFirst fields t <;> simp [Except.map, hf]

/-- The document builder reads the envelope only through "attrs" and the
metadata only through "status": it cannot see the metadata.tenant value. -/
theorem build_docs_updMetaTenant (v data metadata device_id : JVal) (ts : ℚ) :
    build_docs (updMetaTenant v data) (updTenant v metadata) device_id ts =
      build_docs data metadata device_id ts := by
  have h1 : pyGetD (updMetaTenant v data) "attrs" (.jobj []) =
      pyGetD data "attrs" (.jobj []) :=
    pyGetD_updValue "metadata" (updTenant v) data "attrs" (.jobj []) (by decide)
  have h2 : pyGetItem (updMetaTenant v data) "attrs" = pyGetItem data "attrs" :=
    pyGetItem_updValue "metadata" (updTenant v) data "attrs" (by decide)
  have h3 : pyGet (updTenant v metadata) "status" = pyGet metadata "status" :=
    pyGet_updValue "tenant" (fun _ => v) metadata "status" (by decide)
  have h4 : ∀ ks, attrLoop (updMetaTenant v data) device_id ts ks =
      attrLoop data device_id ts ks := by
    intro ks
    induction ks with
    | nil => rfl
    | cons k ks ih => simp only [attrLoop, h2, ih]
  simp only [build_docs, h1, h3, h4]

/-- The database calls of a concatenated trace are those of the parts. -/
theorem dbEvents_append (l1 l2 : List Event) :
    dbEvents (l1 ++ l2) = dbEvents l1 ++ dbEvents l2 := by
  induction l1 with
  | nil => rfl
  | cons e es ih => by_cases h : (e.level).isNone <;> simp [dbEvents, h, ih]

/-- The observable outcome of `handle_event_data` (its database calls
and its result) is unchanged when the metadata.tenant value of the envelope is
replaced: the handler never reads that field. -/
theorem handle_event_data_obs_updMetaTenant (dateParse : String → Option ℚ)
    (db : Db) (now : Int) (tenant : String) (v data : JVal) :
    (dbEvents (handle_event_data dateParse db now tenant
        (some (updMetaTenant v data))).1,
     (handle_event_data dateParse db now tenant (some (updMetaTenant v data))).2) =
    (dbEvents (handle_event_data dateParse db now tenant (some data)).1,
     (handle_event_data dateParse db now tenant (some data)).2) := by
  have hmeta : pyGet (updMetaTenant v data) "metadata" =
      (pyGet data "metadata").map (updTenant v) :=
    pyGet_updValue_self "metadata" (updTenant v) data rfl
  simp only [handle_event_data, hmeta]
  cases hmd : pyGet data "metadata" with
  | error e => rfl
  | ok metadata =>
    have hisn : (updTenant v metadata).isNull = metadata.isNull :=
      updValue_isNull "tenant" (fun _ => v) metadata
    simp only [Except.map, hisn]
    cases hnull : metadata.isNull with
    | true => simp [dbEvents, Event.level]
    | false =>
      have hgd : pyGet (updTenant v metadata) "deviceid" =
          pyGet metadata "deviceid" :=
        pyGet_updValue "tenant" (fun _ => v) metadata "deviceid" (by decide)
      rw [hgd]
      cases hdev : pyGet metadata "deviceid" with
      | error e => simp [dbEvents, Event.level]
      | ok device_id =>
        dsimp only
        cases hdn : device_id.isNull with
        | true => simp [hdn, dbEvents, Event.level]
        | false =>
          have hgt : pyGet (updTenant v metadata) "timestamp" =
              pyGet metadata "timestamp" :=
            pyGet_updValue "tenant" (fun _ => v) metadata "timestamp" (by decide)
          rw [hgt]
          cases htv : pyGet metadata "timestamp" with
          | error e => simp [hdn, dbEvents, Event.level]
          | ok tsv =>
            dsimp only
            rcases hpd : parse_datetime dateParse now tsv with ⟨tlogs, r⟩
            cases r with
            | error e =>
              simp [hdn, hpd, dbEvents, Event.level, dbEvents_append,
                Option.isNone]
            | ok ts =>
              dsimp only
              rw [build_docs_updMetaTenant]
              cases hbd : build_docs data metadata device_id ts with
              | error e =>
                simp [hdn, hpd, hbd, dbEvents, Event.level, dbEvents_append,
                  Option.isNone]
              | ok docs =>
                dsimp only
                cases hempty : docs.isEmpty with
                | true =>
                  simp [hdn, hpd, hbd, hempty, dbEvents, Event.level,
                    dbEvents_append, Option.isNone]
                | false =>
                  cases hins : db.failInsertMany (tenant ++ "_" ++ pyStr device_id)
                      docs with
                  | none =>
                    simp [hdn, hpd, hbd, hempty, hins, dbEvents, Event.level,
                      dbEvents_append, Option.isNone]
                  | some e =>
                    simp [hdn, hpd, hbd, hempty, hins, dbEvents, Event.level,
                      dbEvents_append, Option.isNone]

/-- Dropping the pure log entries of a trace does not change its
sink-call projection. -/
theorem sinkCalls_dbEvents (evs : List Event) :
    sinkCalls (dbEvents evs) = sinkCalls evs := by
  induction evs with
  | nil => rfl
  | cons e es ih =>
    cases e <;> simp [dbEvents, sinkCalls, Event.level, Option.isNone, ih]

/-- Claim C10.  Two telemetry envelopes that differ only in the value of
metadata.tenant are handled identically by `handle_event_data` invoked
with the same tenant argument: same database calls, same bulk writes
(identical documents and identical target collection) and same outcome.
The metadata.tenant field of the envelope is never read; the collection
name depends only on the tenant argument of the handler and on
metadata.deviceid. -/
theorem handle_event_data_tenant_field_noninterference
    (dateParse : String → Option ℚ) (db : Db) (now : Int) (tenant : String)
    (data v1 v2 : JVal) :
    dbEvents (handle_event_data dateParse db now tenant
        (some (updMetaTenant v1 data))).1 =
      dbEvents (handle_event_data dateParse db now tenant
        (some (updMetaTenant v2 data))).1
  ∧ sinkCalls (handle_event_data dateParse db now tenant
        (some (updMetaTenant v1 data))).1 =
      sinkCalls (handle_event_data dateParse db now tenant
        (some (updMetaTenant v2 data))).1
  ∧ (handle_event_data dateParse db now tenant (some (updMetaTenant v1 data))).2 =
      (handle_event_data dateParse db now tenant (some (updMetaTenant v2 data))).2 := by
  have h1 := handle_event_data_obs_updMetaTenant dateParse db now tenant v1 data
  have h2 := handle_event_data_obs_updMetaTenant dateParse db now tenant v2 data
  have hpair := h1.trans h2.symm
  have hev : dbEvents (handle_event_data dateParse db now tenant
      (some (updMetaTenant v1 data))).1 =
      dbEvents (handle_event_data dateParse db now tenant
      (some (updMetaTenant v2 data))).1 := congrArg Prod.fst hpair
  have hres := congrArg Prod.snd hpair
  refine ⟨hev, ?_, hres⟩
  calc sinkCalls (handle_event_data dateParse db now tenant
        (some (updMetaTenant v1 data))).1
      = sinkCalls (dbEvents (handle_event_data dateParse db now tenant
        (some (updMetaTenant v1 data))).1) := (sinkCalls_dbEvents _).symm
    _ = sinkCalls (dbEvents (handle_event_data dateParse db now tenant
        (some (updMetaTenant v2 data))).1) := by rw [hev]
    _ = sinkCalls (handle_event_data dateParse db now tenant
        (some (updMetaTenant v2 data))).1 := sinkCalls_dbEvents _
